import Mathlib

/-!
Shallow embedding of the Ai-business-analyst-copilot metrics engine
(`src/metrics_engine.py`) and reasoning layer (`src/ai_reasoning.py`).

The input table is a list of typed rows over exact rationals.  Pandas/numpy
float division by zero does not raise: it yields `inf`, `-inf` or `nan`
(with a warning).  We model those non-finite outcomes with the small `NpF`
type; all other arithmetic is exact rational arithmetic.  Python's
`round(x, 2)` is modelled as exact round-half-to-even at two decimal
places (`pyRound2`), abstracting from binary floating point representation.
-/

/-- Model of a numpy float as used by the engine: a finite rational, or one
of the non-finite values `inf`, `-inf`, `nan` that numpy division by zero
produces without raising. -/
inductive NpF where
  | fin : ℚ → NpF
  | pinf : NpF
  | ninf : NpF
  | nan : NpF
deriving DecidableEq, Inhabited

/-- numpy division `a / b`: ordinary rational division when `b ≠ 0`;
division by zero silently yields `inf`, `-inf` or `nan` (no exception). -/
def npDiv (a b : ℚ) : NpF :=
  if b = 0 then (if 0 < a then NpF.pinf else if a < 0 then NpF.ninf else NpF.nan)
  else NpF.fin (a / b)

/-- Multiplication of a numpy float by a rational constant (IEEE signs;
`0 * inf = nan`). -/
def npScale (c : ℚ) (x : NpF) : NpF :=
  match x with
  | NpF.fin q => NpF.fin (c * q)
  | NpF.pinf => if 0 < c then NpF.pinf else if c < 0 then NpF.ninf else NpF.nan
  | NpF.ninf => if 0 < c then NpF.ninf else if c < 0 then NpF.pinf else NpF.nan
  | NpF.nan => NpF.nan

/-- Negation of a numpy float. -/
def npNeg : NpF → NpF
  | NpF.fin q => NpF.fin (-q)
  | NpF.pinf => NpF.ninf
  | NpF.ninf => NpF.pinf
  | NpF.nan => NpF.nan

/-- Subtraction of numpy floats (IEEE: `inf - inf = nan`, `nan` absorbs). -/
def npSub (a b : NpF) : NpF :=
  match a, b with
  | NpF.fin x, NpF.fin y => NpF.fin (x - y)
  | NpF.fin _, NpF.pinf => NpF.ninf
  | NpF.fin _, NpF.ninf => NpF.pinf
  | NpF.pinf, NpF.fin _ => NpF.pinf
  | NpF.ninf, NpF.fin _ => NpF.ninf
  | NpF.pinf, NpF.ninf => NpF.pinf
  | NpF.ninf, NpF.pinf => NpF.ninf
  | _, _ => NpF.nan

/-- Strict `<` on numpy floats as a boolean; any comparison with `nan`
is false (IEEE). -/
def npLtB (a b : NpF) : Bool :=
  match a, b with
  | NpF.fin x, NpF.fin y => decide (x < y)
  | NpF.fin _, NpF.pinf => true
  | NpF.ninf, NpF.fin _ => true
  | NpF.ninf, NpF.pinf => true
  | _, _ => false

/-- Python `max(a, b)`: starts from `a`, replaces it by `b` only when
`b > a`; with `nan` comparisons being false this reproduces CPython's
behaviour, e.g. `max(nan, 0) = nan` while `max(0, nan) = 0`. -/
def pyMax (a b : NpF) : NpF := if npLtB a b then b else a

/-- Round-half-to-even to an integer, the tie-breaking rule of Python's
built-in `round`. -/
def rne (q : ℚ) : ℤ :=
  if q - (⌊q⌋ : ℚ) < 1/2 then ⌊q⌋
  else if 1/2 < q - (⌊q⌋ : ℚ) then ⌊q⌋ + 1
  else if ⌊q⌋ % 2 = 0 then ⌊q⌋ else ⌊q⌋ + 1

/-- Python `round(q, 2)` on an exact rational. -/
def pyRound2 (q : ℚ) : ℚ := (rne (q * 100) : ℚ) / 100

/-- Python `round(x, 2)` on a numpy float: non-finite values round to
themselves. -/
def npRound2 : NpF → NpF
  | NpF.fin q => NpF.fin (pyRound2 q)
  | x => x

/-- One line item of the input table, after column normalization.  The
numeric columns are exact rationals; `year` is the period identifier. -/
structure Row where
  order_id : ℕ
  sales : ℚ
  profit : ℚ
  discount : ℚ
  category : String
  sub_category : String
  region : String
  segment : String
  year : ℤ
deriving DecidableEq

/-- Sum of a numeric column over a list of rows. -/
def sumQ (f : Row → ℚ) (t : List Row) : ℚ := (t.map f).sum

/-- `Series.nunique` on the `order_id` column: the number of distinct
order ids. -/
def nuniqueOid (t : List Row) : ℕ := ((t.map Row.order_id).dedup).length

/-- Mean of a list of rationals (`Series.mean`); the empty case never
arises in the pipeline (groups are non-empty). -/
def meanQ (l : List ℚ) : ℚ := l.sum / (l.length : ℚ)

/-- The square of `Series.std` (sample standard deviation, `ddof = 1`),
composed with the pipeline's `fillna(0)`: for at most one observation the
std is `NaN` and `fillna` maps it to `0`.  We carry the variance rather
than the std itself because the std is an irrational square root; the
stability thresholds are applied to the variance with squared constants,
which is equivalent since the std is non-negative. -/
def sampleVarQ (l : List ℚ) : ℚ :=
  if l.length ≤ 1 then 0
  else ((l.map (fun x => (x - meanQ l) ^ 2)).sum) / ((l.length : ℚ) - 1)

-- ---------------------------------------------------------------------
-- Column normalization and column checks (`normalize_columns` and the
-- explicit column checks of the source).  Only the schema level is
-- modelled here; the typed table above corresponds to a frame that has
-- all required columns.
-- ---------------------------------------------------------------------

/-- Word characters of the regex `\w`: letters, digits, underscore. -/
def isWordChar (c : Char) : Bool := c.isAlphanum || c == '_'

/-- Replace every maximal run of non-word characters by a single
underscore (the regex substitution `[^\w]+` → `_`).  The boolean records
whether the previous character was part of a non-word run. -/
def collapseNonWord : List Char → Bool → List Char
  | [], _ => []
  | c :: rest, prevNon =>
    if isWordChar c then c :: collapseNonWord rest false
    else if prevNon then collapseNonWord rest true
    else '_' :: collapseNonWord rest true

/-- `normalize_columns` on one column name: strip whitespace, lowercase,
replace runs of non-word characters with `_` (source lines 8-13). -/
def normCol (s : String) : String :=
  String.mk (collapseNonWord (s.trim.data.map Char.toLower) false)

/-- `normalize_columns` on the schema: the list of column names. -/
def normalizeColumns (cols : List String) : List String := cols.map normCol

/-- The explicit column check of `profit_by_dimension` (source lines
44-45): a missing dimension column raises a `ValueError` whose message
names the column. -/
def profitByDimensionCheck (cols : List String) (column : String) :
    Except String Unit :=
  if column ∈ cols then Except.ok ()
  else Except.error ("Column '" ++ column ++ "' not found in dataframe")

/-- The explicit column check of `consistency_analysis` (source lines
139-140): a missing dimension or time column raises a `ValueError` with
the fixed message `Invalid dimension or time column`. -/
def consistencyAnalysisCheck (cols : List String) (dimension timeCol : String) :
    Except String Unit :=
  if dimension ∉ cols ∨ timeCol ∉ cols then
    Except.error "Invalid dimension or time column"
  else Except.ok ()

-- ---------------------------------------------------------------------
-- String helpers for the Q&A routing (Python substring containment).
-- ---------------------------------------------------------------------

/-- Does the second character list start with the first? -/
def listHasPre : List Char → List Char → Bool
  | [], _ => true
  | _ :: _, [] => false
  | a :: as, b :: bs => a == b && listHasPre as bs

/-- Is the first character list a contiguous segment of the second? -/
def listHasSub : List Char → List Char → Bool
  | sub, [] => listHasPre sub []
  | sub, h :: t => listHasPre sub (h :: t) || listHasSub sub t

/-- Python `sub in q`: substring containment. -/
def strIn (sub q : String) : Bool := listHasSub sub.data q.data

/-- Python `any(word in q for word in ws)`. -/
def anyIn (ws : List String) (q : String) : Bool := ws.any (fun w => strIn w q)

/-- Python `str.lower()` (ASCII abstraction). -/
def pyLower (s : String) : String := s.map Char.toLower

/-- Python `str.strip()`. -/
def pyStrip (s : String) : String := s.trim

-- ---------------------------------------------------------------------
-- Metrics engine (`src/metrics_engine.py`)
-- ---------------------------------------------------------------------

/-- Result of `compute_kpis` (source lines 20-37).  `profit_margin_pct`
is a numpy float because the revenue division does not guard zero. -/
structure Kpis where
  total_revenue : ℚ
  total_profit : ℚ
  profit_margin_pct : NpF
  total_orders : ℕ
  loss_order_pct : ℚ
deriving DecidableEq

/-- `compute_kpis` (source lines 20-37).  The margin division by a zero
revenue silently yields a non-finite numpy float; the loss-order division
is Python integer division, so a zero distinct-order count raises
`ZeroDivisionError`. -/
def computeKpis (t : List Row) : Except String Kpis :=
  let tr := sumQ Row.sales t
  let tp := sumQ Row.profit t
  let margin := npScale 100 (npDiv tp tr)
  let totalOrders := nuniqueOid t
  let lossOrders := nuniqueOid (t.filter (fun r => decide (r.profit < 0)))
  if totalOrders = 0 then Except.error "ZeroDivisionError: division by zero"
  else Except.ok
    { total_revenue := pyRound2 tr
      total_profit := pyRound2 tp
      profit_margin_pct := npRound2 margin
      total_orders := totalOrders
      loss_order_pct := pyRound2 ((lossOrders : ℚ) / (totalOrders : ℚ) * 100) }

/-- One output row of `profit_by_dimension`: the dimension value and the
aggregated sales/profit/margin of its group. -/
structure DimRow where
  value : String
  total_sales : ℚ
  total_profit : ℚ
  profit_margin_pct : NpF
deriving DecidableEq, Inhabited

/-- Ascending order on `total_profit`, the sort key of
`profit_by_dimension` (source line 60). -/
def dimLe (a b : DimRow) : Prop := a.total_profit ≤ b.total_profit

instance : DecidableRel dimLe :=
  fun a b => inferInstanceAs (Decidable (a.total_profit ≤ b.total_profit))

instance : IsTotal DimRow dimLe := ⟨fun a b => le_total a.total_profit b.total_profit⟩

instance : IsTrans DimRow dimLe := ⟨fun _ _ _ h1 h2 => le_trans h1 h2⟩

/-- Rows of the group of a given dimension value. -/
def dimGroup (t : List Row) (key : Row → String) (d : String) : List Row :=
  t.filter (fun r => key r == d)

/-- `profit_by_dimension` (source lines 43-60): group by the dimension,
sum sales and profit, compute the margin, sort ascending by total profit.
The typed table always has the fixed dimension columns, so the source's
column-existence check (modelled at schema level by
`profitByDimensionCheck`) passes here. -/
def profitByDimension (t : List Row) (key : Row → String) : List DimRow :=
  let dims := (t.map key).dedup
  let rows := dims.map (fun d =>
    let g := dimGroup t key d
    { value := d
      total_sales := sumQ Row.sales g
      total_profit := sumQ Row.profit g
      profit_margin_pct := npScale 100 (npDiv (sumQ Row.profit g) (sumQ Row.sales g)) })
  List.insertionSort dimLe rows

/-- Result of `worst_performers` (source lines 63-69). -/
structure WorstPerformers where
  worst_category : String
  worst_sub_category : String
  worst_region : String
  worst_segment : String
deriving DecidableEq

/-- `.iloc[0]`: the first row, raising `IndexError` on an empty frame. -/
def firstRow {α : Type} : List α → Except String α
  | [] => Except.error "IndexError: single positional indexer is out-of-bounds"
  | x :: _ => Except.ok x

/-- `worst_performers` (source lines 63-69): the dimension value of the
first (worst-profit) row of `profit_by_dimension` for each of the four
fixed dimensions. -/
def worstPerformers (t : List Row) : Except String WorstPerformers := do
  let c ← firstRow (profitByDimension t Row.category)
  let sc ← firstRow (profitByDimension t Row.sub_category)
  let rg ← firstRow (profitByDimension t Row.region)
  let sg ← firstRow (profitByDimension t Row.segment)
  Except.ok
    { worst_category := c.value
      worst_sub_category := sc.value
      worst_region := rg.value
      worst_segment := sg.value }

/-- The bucket of `pd.cut(discount, bins=[-0.01, 0.10, 0.20, 0.30, 1.0])`
(source lines 73-77): four right-closed intervals; values outside
`(-0.01, 1.0]` get no bucket (`NaN`). -/
def bucketOf (d : ℚ) : Option (Fin 4) :=
  if -(1/100) < d ∧ d ≤ 1/10 then some 0
  else if 1/10 < d ∧ d ≤ 1/5 then some 1
  else if 1/5 < d ∧ d ≤ 3/10 then some 2
  else if 3/10 < d ∧ d ≤ 1 then some 3
  else none

/-- The rows of the table falling in a given discount bucket. -/
def bucketRows (t : List Row) (i : Fin 4) : List Row :=
  t.filter (fun r => bucketOf r.discount == some i)

/-- The fixed bucket labels (source line 74). -/
def bucketLabel : Fin 4 → String
  | 0 => "0-10%"
  | 1 => "10-20%"
  | 2 => "20-30%"
  | 3 => "30%+"

/-- One output row of `discount_profit_analysis`.  `order_count` is the
distinct order count *within the bucket*. -/
structure BucketRow where
  label : String
  total_sales : ℚ
  total_profit : ℚ
  order_count : ℕ
  profit_margin_pct : NpF
deriving DecidableEq

/-- The aggregate row of one discount bucket. -/
def mkBucketRow (t : List Row) (i : Fin 4) : BucketRow :=
  let g := bucketRows t i
  { label := bucketLabel i
    total_sales := sumQ Row.sales g
    total_profit := sumQ Row.profit g
    order_count := nuniqueOid g
    profit_margin_pct := npScale 100 (npDiv (sumQ Row.profit g) (sumQ Row.sales g)) }

/-- `discount_profit_analysis` (source lines 72-93): grouping by the cut
categorical yields one row per bucket in label order (all four categories
appear even when empty). -/
def discountProfitAnalysis (t : List Row) : List BucketRow :=
  [mkBucketRow t 0, mkBucketRow t 1, mkBucketRow t 2, mkBucketRow t 3]

/-- Median of a series (`Series.median`); the empty case is only used
under a non-empty guard. -/
def medianQ (l : List ℚ) : ℚ :=
  let s := List.insertionSort (fun a b : ℚ => a ≤ b) l
  let n := s.length
  if n % 2 = 1 then s.getD (n / 2) 0
  else (s.getD (n / 2 - 1) 0 + s.getD (n / 2) 0) / 2

/-- Projection returned by `high_sales_negative_profit` (source line 104). -/
structure HsnpRow where
  order_id : ℕ
  sales : ℚ
  profit : ℚ
  discount : ℚ
  category : String
  sub_category : String
deriving DecidableEq

/-- `high_sales_negative_profit` (source lines 96-104): line items with
sales above the table median and negative profit.  On an empty table the
median is `NaN` and the comparison is false for every (non-existent) row,
so the result is empty. -/
def highSalesNegativeProfit (t : List Row) : List HsnpRow :=
  match t with
  | [] => []
  | _ :: _ =>
    (t.filter (fun r =>
        decide (medianQ (t.map Row.sales) < r.sales) && decide (r.profit < 0))).map
      (fun r => { order_id := r.order_id, sales := r.sales, profit := r.profit,
                  discount := r.discount, category := r.category,
                  sub_category := r.sub_category })

/-- One output row of `consistency_analysis` for a dimension value. -/
structure ConsistencyRow where
  value : String
  loss_periods : ℕ
  total_periods : ℕ
  avg_profit : ℚ
  loss_consistency_ratio : ℚ
deriving DecidableEq

/-- Descending order on `loss_consistency_ratio`, the sort of
`consistency_analysis` (source line 164). -/
def caGe (a b : ConsistencyRow) : Prop :=
  b.loss_consistency_ratio ≤ a.loss_consistency_ratio

instance : DecidableRel caGe :=
  fun a b => inferInstanceAs (Decidable (b.loss_consistency_ratio ≤ a.loss_consistency_ratio))

/-- The distinct `(dimension value, year)` pairs of the table. -/
def periodKeys (t : List Row) (key : Row → String) : List (String × ℤ) :=
  (t.map (fun r => (key r, r.year))).dedup

/-- The rows of one `(dimension value, year)` group. -/
def periodRows (t : List Row) (key : Row → String) (p : String × ℤ) : List Row :=
  t.filter (fun r => key r == p.1 && r.year == p.2)

/-- `consistency_analysis` (source lines 136-164): per dimension value,
over the per-period profit totals: count of loss periods, period count,
mean profit and the loss-consistency ratio; sorted descending by ratio.
The typed table always has the dimension and time columns, so the
source's check (`consistencyAnalysisCheck` at schema level) passes. -/
def consistencyAnalysis (t : List Row) (key : Row → String) : List ConsistencyRow :=
  let dims := (t.map key).dedup
  let rows := dims.map (fun d =>
    let profits := ((periodKeys t key).filter (fun p => p.1 == d)).map
      (fun p => sumQ Row.profit (periodRows t key p))
    let lossP := (profits.filter (fun x => decide (x < 0))).length
    let totP := profits.length
    { value := d
      loss_periods := lossP
      total_periods := totP
      avg_profit := meanQ profits
      loss_consistency_ratio := (lossP : ℚ) / (totP : ℚ) })
  List.insertionSort caGe rows

/-- Result of `profit_health_score` (source lines 167-180). -/
structure HealthResult where
  health_score : NpF
  profit_margin_pct : NpF
  loss_order_pct : ℚ
deriving DecidableEq

/-- `profit_health_score` (source lines 167-180): starts at 100,
subtracts `max(0, -margin) * 2` and `max(0, loss_pct - 15) * 1.5`, clamps
with `max(score, 0)` and rounds to 2 decimals.  It inherits
`compute_kpis`'s failure on a zero order count. -/
def profitHealthScore (t : List Row) : Except String HealthResult := do
  let k ← computeKpis t
  let score1 := npSub (NpF.fin 100) (npScale 2 (pyMax (NpF.fin 0) (npNeg k.profit_margin_pct)))
  let score2 := npSub score1 (NpF.fin ((3/2) * max 0 (k.loss_order_pct - 15)))
  Except.ok
    { health_score := npRound2 (pyMax score2 (NpF.fin 0))
      profit_margin_pct := k.profit_margin_pct
      loss_order_pct := k.loss_order_pct }

/-- One output row of `order_loss_consistency` for a dimension value.
`std_sq_loss_ratio` holds the square of the source's `std_loss_ratio`
column (see `sampleVarQ`). -/
structure OrderLossRow where
  value : String
  avg_loss_ratio : ℚ
  std_sq_loss_ratio : ℚ
  periods_analyzed : ℕ
  stability : String
deriving DecidableEq

/-- Descending order on `avg_loss_ratio`, the sort of
`order_loss_consistency` (source line 226). -/
def olcGe (a b : OrderLossRow) : Prop := b.avg_loss_ratio ≤ a.avg_loss_ratio

instance : DecidableRel olcGe :=
  fun a b => inferInstanceAs (Decidable (b.avg_loss_ratio ≤ a.avg_loss_ratio))

/-- The per-period loss-order ratio (source lines 191-202): loss-making
*line items* divided by *distinct* order ids of the period group. -/
def lossOrderRatio (g : List Row) : ℚ :=
  ((g.filter (fun r => decide (r.profit < 0))).length : ℚ) / (nuniqueOid g : ℚ)

/-- The per-period loss-order ratios of one dimension value. -/
def ratiosFor (t : List Row) (key : Row → String) (d : String) : List ℚ :=
  ((periodKeys t key).filter (fun p => p.1 == d)).map
    (fun p => lossOrderRatio (periodRows t key p))

/-- The stability classification of `order_loss_consistency` (source
lines 218-224), applied to the squared std: `std < 0.05` iff
`var < 1/400`, `std < 0.15` iff `var < 9/400` (std is non-negative). -/
def stabilityOfVar (v : ℚ) : String :=
  if v < 1/400 then "Stable" else if v < 9/400 then "Moderate" else "Unstable"

/-- `order_loss_consistency` (source lines 183-226): per dimension value,
the mean and (squared) sample std of the per-period loss-order ratios,
the period count and the stability label; sorted descending by the mean
ratio. -/
def orderLossConsistency (t : List Row) (key : Row → String) : List OrderLossRow :=
  let dims := (t.map key).dedup
  let rows := dims.map (fun d =>
    let ratios := ratiosFor t key d
    let v := sampleVarQ ratios
    { value := d
      avg_loss_ratio := meanQ ratios
      std_sq_loss_ratio := v
      periods_analyzed := ratios.length
      stability := stabilityOfVar v })
  List.insertionSort olcGe rows

/-- The metrics mapping built by `compute_advanced_metrics` (source lines
110-132), the sole artifact handed to the reasoning layer. -/
structure Metrics where
  profit_by_category : List DimRow
  profit_by_sub_category : List DimRow
  profit_by_region : List DimRow
  profit_by_segment : List DimRow
  worst_performers : WorstPerformers
  discount_analysis : List BucketRow
  high_sales_negative_profit : List HsnpRow
  structural_collapse_by_category : List ConsistencyRow
  structural_inefficiency_by_category : List OrderLossRow
  business_health : HealthResult
deriving DecidableEq

/-- `compute_advanced_metrics` (source lines 110-132), with the source's
evaluation order: the first fallible step is `worst_performers`
(line 121), followed by `profit_health_score` (line 130). -/
def computeAdvancedMetrics (t : List Row) : Except String Metrics := do
  let pc := profitByDimension t Row.category
  let psc := profitByDimension t Row.sub_category
  let pr := profitByDimension t Row.region
  let ps := profitByDimension t Row.segment
  let wp ← worstPerformers t
  let da := discountProfitAnalysis t
  let hs := highSalesNegativeProfit t
  let sc := consistencyAnalysis t Row.category
  let si := orderLossConsistency t Row.category
  let bh ← profitHealthScore t
  Except.ok
    { profit_by_category := pc
      profit_by_sub_category := psc
      profit_by_region := pr
      profit_by_segment := ps
      worst_performers := wp
      discount_analysis := da
      high_sales_negative_profit := hs
      structural_collapse_by_category := sc
      structural_inefficiency_by_category := si
      business_health := bh }

-- ---------------------------------------------------------------------
-- Reasoning layer (`src/ai_reasoning.py`)
-- ---------------------------------------------------------------------

/-- `Series.max`: `none` models the `NaN` of an empty series, for which
every comparison is false. -/
def seriesMax (l : List ℚ) : Option ℚ :=
  match l with
  | [] => none
  | x :: xs => some (xs.foldl max x)

/-- The comparison `collapse_risk > 0` of the source (line 21): false for
the `NaN` of an empty series. -/
def optGt0 : Option ℚ → Bool
  | none => false
  | some x => decide (0 < x)

/-- The decision summary built by `summarize_business` (source lines
30-37).  `highest_loss_ratio` is a percentage rounded to 2 decimals. -/
structure Summary where
  health_score : NpF
  profit_margin_pct : NpF
  loss_order_pct : ℚ
  highest_risk_category : String
  highest_loss_ratio : ℚ
  risk_level : String
deriving DecidableEq

/-- `summarize_business` (source lines 3-39): reads the health mapping,
takes the max collapse ratio, reads the first (worst) structural
inefficiency row via `.iloc[0]` (raising `IndexError` when there is
none), and classifies the risk level with the source's exact strings and
precedence. -/
def summarizeBusiness (m : Metrics) : Except String Summary :=
  let collapseRisk := seriesMax
    (m.structural_collapse_by_category.map (fun c => c.loss_consistency_ratio))
  match m.structural_inefficiency_by_category with
  | [] => Except.error "IndexError: single positional indexer is out-of-bounds"
  | top :: _ =>
    let risk :=
      if optGt0 collapseRisk then "Severe (Structural Collapse Detected)"
      else if 35/100 < top.avg_loss_ratio then "High (Structural Inefficiency)"
      else if 25/100 < top.avg_loss_ratio then "Moderate"
      else "Low"
    Except.ok
      { health_score := m.business_health.health_score
        profit_margin_pct := m.business_health.profit_margin_pct
        loss_order_pct := m.business_health.loss_order_pct
        highest_risk_category := top.value
        highest_loss_ratio := pyRound2 (top.avg_loss_ratio * 100)
        risk_level := risk }

/-- Deterministic rendering of a rational for the canned responses.  It
abstracts Python's float formatting; the claims under verification depend
only on which template is selected, not on the digits rendered. -/
def ratShow (q : ℚ) : String :=
  toString q.num ++ (if q.den = 1 then ".0" else "/" ++ toString q.den)

/-- Rendering of a numpy float for the canned responses. -/
def npShow : NpF → String
  | NpF.fin q => ratShow q
  | NpF.pinf => "inf"
  | NpF.ninf => "-inf"
  | NpF.nan => "nan"

/-- Health-intent response (source line 76). -/
def healthResp (s : Summary) : String :=
  "The overall business health score is " ++ npShow s.health_score ++ "/100."

/-- Margin-intent response (source line 80). -/
def marginResp (s : Summary) : String :=
  "The current profit margin is " ++ npShow s.profit_margin_pct ++ "%."

/-- Loss-order-intent response (source line 84). -/
def lossResp (s : Summary) : String :=
  ratShow s.loss_order_pct ++ "% of total orders are loss-making."

/-- Risk-category-intent response (source lines 88-93). -/
def riskCategoryResp (s : Summary) : String :=
  "The category with highest structural inefficiency is " ++
    s.highest_risk_category ++ " with approximately " ++
    ratShow s.highest_loss_ratio ++ "% loss-making orders."

/-- Stability-intent response (source lines 97-101), rendered from the
first (worst) structural-inefficiency row. -/
def stabilityResp (w : OrderLossRow) : String :=
  w.value ++ " shows " ++ w.stability ++ " behavior with an average loss ratio of " ++
    ratShow (pyRound2 (w.avg_loss_ratio * 100)) ++ "%."

/-- Risk-level fallback response (source line 105). -/
def riskLevelResp (s : Summary) : String :=
  "Risk classification is: " ++ s.risk_level ++ "."

/-- The fixed guidance message for unrecognized questions (source lines
108-111). -/
def notRecognizedMsg : String :=
  "Question not recognized. You can ask about health, margin, loss orders, risk level, or stability."

/-- `answer_business_question` (source lines 65-111): lowercases and
strips the question, recomputes the decision summary (which can raise),
then routes by substring containment through the source's if/elif chain
in order. -/
def answerBusinessQuestion (question : String) (m : Metrics) : Except String String := do
  let q := pyStrip (pyLower question)
  let s ← summarizeBusiness m
  if anyIn ["health", "overall score", "business condition"] q then
    Except.ok (healthResp s)
  else if anyIn ["margin", "profit margin"] q then
    Except.ok (marginResp s)
  else if anyIn ["loss order", "loss orders", "loss percentage", "how many loss"] q then
    Except.ok (lossResp s)
  else if anyIn ["highest risk", "risk category", "most risky"] q then
    Except.ok (riskCategoryResp s)
  else if anyIn ["stable", "stability", "volatility", "unstable"] q then
    match m.structural_inefficiency_by_category with
    | [] => Except.error "IndexError: single positional indexer is out-of-bounds"
    | w :: _ => Except.ok (stabilityResp w)
  else if strIn "risk" q then
    Except.ok (riskLevelResp s)
  else
    Except.ok notRecognizedMsg

/-- Modelled from the spec's words (§4.2 `answerBusinessQuestion`): the
ordered keyword groups with their canned responses, first-match-wins.
This is the spec-side definition used to state the refinement claim; the
code-side definition is `answerBusinessQuestion` above. -/
def intentGroups (s : Summary) (w : OrderLossRow) : List (List String × String) :=
  [ (["health", "overall score", "business condition"], healthResp s),
    (["margin", "profit margin"], marginResp s),
    (["loss order", "loss orders", "loss percentage", "how many loss"], lossResp s),
    (["highest risk", "risk category", "most risky"], riskCategoryResp s),
    (["stable", "stability", "volatility", "unstable"], stabilityResp w),
    (["risk"], riskLevelResp s) ]

/-- First-match-wins dispatch over ordered keyword groups, with a default
for questions matching no group. -/
def firstMatch : List (List String × String) → String → String → String
  | [], _, dflt => dflt
  | (ws, resp) :: rest, q, dflt =>
    if anyIn ws q then resp else firstMatch rest q dflt

/-- Modelled from the spec's words: `answerBusinessQuestion` as ordered
first-match intent dispatch (spec §4.2, groups 1-6 then the fixed
not-recognized message). -/
def answerSpec (question : String) (m : Metrics) : Except String String := do
  let s ← summarizeBusiness m
  match m.structural_inefficiency_by_category with
  | [] => Except.error "IndexError: single positional indexer is out-of-bounds"
  | w :: _ =>
    Except.ok (firstMatch (intentGroups s w) (pyStrip (pyLower question)) notRecognizedMsg)

/-- True when the (lowercased, stripped) question matches none of the six
keyword groups. -/
def noMatch (q : String) : Bool :=
  [["health", "overall score", "business condition"],
   ["margin", "profit margin"],
   ["loss order", "loss orders", "loss percentage", "how many loss"],
   ["highest risk", "risk category", "most risky"],
   ["stable", "stability", "volatility", "unstable"],
   ["risk"]].all (fun ws => !(anyIn ws q))

-- ---------------------------------------------------------------------
-- Concrete tables and metrics used by the witnesses and counterexamples.
-- ---------------------------------------------------------------------

/-- Row builder for the concrete test tables. -/
def mkRow (oid : ℕ) (s p d : ℚ) (c : String) (y : ℤ) : Row :=
  { order_id := oid, sales := s, profit := p, discount := d, category := c,
    sub_category := "s", region := "r", segment := "g", year := y }

/-- One period of `n` single-line orders of which the first `nloss` are
loss-making. -/
def mkOrders (y : ℤ) (n nloss : ℕ) : List Row :=
  (List.range n).map (fun i => mkRow (i + 1) 1 (if i < nloss then -1 else 1) 0 "a" y)

/-- One order with two loss-making line items in a single period. -/
def tblNegPair : List Row := [mkRow 1 10 (-5) 0 "a" 2020, mkRow 1 10 (-3) 0 "a" 2020]

/-- Per-period loss-order ratios 0, 1/20, 1/10: sample variance exactly
1/400, i.e. a sample std of exactly 0.05. -/
def tblStd5 : List Row := mkOrders 1 1 0 ++ mkOrders 2 20 1 ++ mkOrders 3 10 1

/-- Per-period loss-order ratios 0, 3/20, 3/10: sample variance exactly
9/400, i.e. a sample std of exactly 0.15. -/
def tblStd15 : List Row := mkOrders 1 1 0 ++ mkOrders 2 20 3 ++ mkOrders 3 10 3

/-- A single order whose two line items fall in different discount
buckets. -/
def tblSplitBuckets : List Row :=
  [mkRow 1 10 1 (1/20) "a" 2020, mkRow 1 20 2 (1/4) "a" 2020]

/-- Two orders with in-range discounts, each in a single bucket. -/
def tblInRange : List Row :=
  [mkRow 1 10 1 (1/20) "a" 2020, mkRow 2 20 3 (1/4) "b" 2021]

/-- One profitable line item with zero sales: zero total revenue but a
nonzero distinct order count. -/
def tblZeroRevenue : List Row := [mkRow 1 0 5 0 "a" 2020]

/-- One profitable line item with positive sales. -/
def tblOneRow : List Row := [mkRow 1 10 5 0 "a" 2020]

/-- Two orders in two categories. -/
def tblTwoCat : List Row := [mkRow 1 10 5 0 "a" 2020, mkRow 2 20 (-3) 0 "b" 2020]

/-- Metrics with a positive collapse ratio, used against the literal
string "Severe". -/
def mSevere : Metrics :=
  { profit_by_category := [], profit_by_sub_category := [], profit_by_region := [],
    profit_by_segment := [],
    worst_performers := { worst_category := "a", worst_sub_category := "s",
                          worst_region := "r", worst_segment := "g" }
    discount_analysis := [], high_sales_negative_profit := [],
    structural_collapse_by_category :=
      [{ value := "a", loss_periods := 1, total_periods := 1, avg_profit := -5,
         loss_consistency_ratio := 1 }],
    structural_inefficiency_by_category :=
      [{ value := "b", avg_loss_ratio := 0, std_sq_loss_ratio := 0,
         periods_analyzed := 1, stability := "Stable" }],
    business_health := { health_score := NpF.fin 50, profit_margin_pct := NpF.fin 10,
                         loss_order_pct := 0 } }

/-- Metrics with a positive collapse ratio, used to instantiate the
precedence theorem. -/
def mSevereW : Metrics :=
  { profit_by_category := [], profit_by_sub_category := [], profit_by_region := [],
    profit_by_segment := [],
    worst_performers := { worst_category := "a", worst_sub_category := "s",
                          worst_region := "r", worst_segment := "g" }
    discount_analysis := [], high_sales_negative_profit := [],
    structural_collapse_by_category :=
      [{ value := "a", loss_periods := 1, total_periods := 2, avg_profit := 5,
         loss_consistency_ratio := 1/2 }],
    structural_inefficiency_by_category :=
      [{ value := "b", avg_loss_ratio := 2/5, std_sq_loss_ratio := 0,
         periods_analyzed := 1, stability := "Stable" }],
    business_health := { health_score := NpF.fin 50, profit_margin_pct := NpF.fin 10,
                         loss_order_pct := 0 } }

/-- Well-formed metrics with no collapse, used to route a question that
matches no keyword group. -/
def mAnswer : Metrics :=
  { profit_by_category := [], profit_by_sub_category := [], profit_by_region := [],
    profit_by_segment := [],
    worst_performers := { worst_category := "a", worst_sub_category := "s",
                          worst_region := "r", worst_segment := "g" }
    discount_analysis := [], high_sales_negative_profit := [],
    structural_collapse_by_category := [],
    structural_inefficiency_by_category :=
      [{ value := "b", avg_loss_ratio := 1/10, std_sq_loss_ratio := 0,
         periods_analyzed := 1, stability := "Stable" }],
    business_health := { health_score := NpF.fin 80, profit_margin_pct := NpF.fin 20,
                         loss_order_pct := 5 } }

/-- Metrics whose structural-inefficiency table is empty. -/
def mNoRows : Metrics :=
  { profit_by_category := [], profit_by_sub_category := [], profit_by_region := [],
    profit_by_segment := [],
    worst_performers := { worst_category := "", worst_sub_category := "",
                          worst_region := "", worst_segment := "" }
    discount_analysis := [], high_sales_negative_profit := [],
    structural_collapse_by_category := [],
    structural_inefficiency_by_category := [],
    business_health := { health_score := NpF.fin 0, profit_margin_pct := NpF.fin 0,
                         loss_order_pct := 0 } }

-- ---------------------------------------------------------------------
-- Helper lemmas
-- ---------------------------------------------------------------------

/-- A list starts with itself. -/
lemma listHasPre_self (l : List Char) (t : List Char) :
    listHasPre l (l ++ t) = true := by
  induction l with
  | nil => rfl
  | cons c cs ih => simp [listHasPre, ih]

/-- A displayed segment is found by the substring scan. -/
lemma listHasSub_append (s p t : List Char) :
    listHasSub s (p ++ (s ++ t)) = true := by
  induction p with
  | nil =>
    cases s with
    | nil => cases t <;> simp [listHasSub, listHasPre]
    | cons c cs =>
      simp [listHasSub, listHasPre, listHasPre_self cs t]
  | cons c cs ih =>
    simp only [List.cons_append, listHasSub, List.append_eq]
    rw [ih]
    simp

/-- Positivity of a fold of `max` over rationals. -/
lemma foldl_max_pos (xs : List ℚ) (x : ℚ) :
    0 < xs.foldl max x ↔ 0 < x ∨ ∃ y ∈ xs, 0 < y := by
  induction xs generalizing x with
  | nil => simp
  | cons a as ih =>
    rw [List.foldl_cons, ih (max x a)]
    simp only [lt_max_iff, List.mem_cons]
    constructor
    · rintro ((h | h) | ⟨y, hy, hy0⟩)
      · exact Or.inl h
      · exact Or.inr ⟨a, Or.inl rfl, h⟩
      · exact Or.inr ⟨y, Or.inr hy, hy0⟩
    · rintro (h | ⟨y, (rfl | hy), hy0⟩)
      · exact Or.inl (Or.inl h)
      · exact Or.inl (Or.inr hy0)
      · exact Or.inr ⟨y, hy, hy0⟩

/-- The source's `collapse_risk > 0` test holds iff some element of the
series is positive. -/
lemma optGt0_seriesMax (l : List ℚ) :
    optGt0 (seriesMax l) = true ↔ ∃ x ∈ l, 0 < x := by
  cases l with
  | nil => simp [seriesMax, optGt0]
  | cons x xs =>
    simp only [seriesMax, optGt0, decide_eq_true_eq, foldl_max_pos, List.mem_cons]
    constructor
    · rintro (h | ⟨y, hy, hy0⟩)
      · exact ⟨x, Or.inl rfl, h⟩
      · exact ⟨y, Or.inr hy, hy0⟩
    · rintro ⟨y, (rfl | hy), hy0⟩
      · exact Or.inl hy0
      · exact Or.inr ⟨y, hy, hy0⟩

/-- C2 (amended): after normalization, a missing required column makes
both checking operations fail immediately with an error (no silent
default); `profit_by_dimension`'s message names the missing column, while
`consistency_analysis`'s message is the fixed string
"Invalid dimension or time column", which does not name it. -/
theorem missing_column_checks (rawCols : List String) (dim tcol col : String) :
    ((dim ∉ normalizeColumns rawCols ∨ tcol ∉ normalizeColumns rawCols) →
      consistencyAnalysisCheck (normalizeColumns rawCols) dim tcol =
        Except.error "Invalid dimension or time column") ∧
    (col ∉ normalizeColumns rawCols →
      ∃ msg, profitByDimensionCheck (normalizeColumns rawCols) col = Except.error msg ∧
        strIn col msg = true) := by
  constructor
  · intro h
    simp [consistencyAnalysisCheck, h]
  · intro h
    refine ⟨"Column '" ++ col ++ "' not found in dataframe", ?_, ?_⟩
    · simp [profitByDimensionCheck, h]
    · show listHasSub col.data ("Column '" ++ col ++ "' not found in dataframe").data = true
      have : ("Column '" ++ col ++ "' not found in dataframe").data =
          "Column '".data ++ (col.data ++ "' not found in dataframe".data) := by
        simp
      rw [this]
      exact listHasSub_append col.data "Column '".data "' not found in dataframe".data

/-- C2 witness: with the normalized schema lacking `category`/`year`,
`consistency_analysis` fails with its fixed message and
`profit_by_dimension` fails with a message naming the column. -/
theorem missing_column_checks_witness :
    consistencyAnalysisCheck (normalizeColumns ["Order ID", "Sales"]) "category" "year" =
      Except.error "Invalid dimension or time column" ∧
    (∃ msg, profitByDimensionCheck (normalizeColumns ["Order ID", "Sales"]) "category" =
      Except.error msg ∧ strIn "category" msg = true) := by
  have h := missing_column_checks ["Order ID", "Sales"] "category" "year" "category"
  have hc : "category" ∉ normalizeColumns ["Order ID", "Sales"] :=
    of_decide_eq_true (by with_unfolding_all rfl)
  exact ⟨h.1 (Or.inl hc), h.2 hc⟩

/-- C2 counterexample: the claim says the raised error names the missing
column, but `consistency_analysis` on a schema lacking `category` and
`year` raises the fixed message "Invalid dimension or time column", which
contains neither column name. -/
theorem consistency_error_without_column_name :
    consistencyAnalysisCheck (normalizeColumns ["Order ID", "Sales", "Profit"])
        "category" "year" = Except.error "Invalid dimension or time column" ∧
    strIn "category" "Invalid dimension or time column" = false ∧
    strIn "year" "Invalid dimension or time column" = false := by
  refine ⟨?_, ?_, ?_⟩ <;> with_unfolding_all rfl

/-- C3: `compute_kpis` on a table with zero total revenue but one order
returns normally with `profit_margin_pct = +inf` (numpy float division by
zero does not raise), while a zero distinct-order count aborts with an
unguarded Python `ZeroDivisionError` rather than a designed failure. -/
theorem computeKpis_division_by_zero :
    computeKpis tblZeroRevenue = Except.ok
      { total_revenue := 0, total_profit := 5, profit_margin_pct := NpF.pinf,
        total_orders := 1, loss_order_pct := 0 } ∧
    computeKpis ([] : List Row) = Except.error "ZeroDivisionError: division by zero" := by
  constructor <;> with_unfolding_all rfl

/-- C10: on the empty table (all columns present, zero rows) the pipeline
fails with the out-of-bounds `.iloc[0]` access of `worst_performers`, not
with a missing-column error; and `summarize_business` fails the same way
whenever the structural-inefficiency table has no rows. -/
theorem empty_table_iloc_failure :
    computeAdvancedMetrics ([] : List Row) =
      Except.error "IndexError: single positional indexer is out-of-bounds" ∧
    ∀ m : Metrics, m.structural_inefficiency_by_category = [] →
      summarizeBusiness m =
        Except.error "IndexError: single positional indexer is out-of-bounds" := by
  constructor
  · with_unfolding_all rfl
  · intro m h
    simp [summarizeBusiness, h]

/-- C10 witness: a metrics mapping with an empty structural-inefficiency
table makes `summarize_business` fail with the `.iloc[0]` IndexError. -/
theorem empty_table_iloc_failure_witness :
    summarizeBusiness mNoRows =
      Except.error "IndexError: single positional indexer is out-of-bounds" :=
  empty_table_iloc_failure.2 mNoRows rfl

/-- C4 (amended): with the source's exact strings, the risk level is
"Severe (Structural Collapse Detected)" whenever some category has a
positive `loss_consistency_ratio`, regardless of `highest_loss_ratio`;
otherwise it is "High (Structural Inefficiency)" above 0.35, "Moderate"
above 0.25, else "Low", in that precedence order. -/
theorem summarizeBusiness_risk_precedence (m : Metrics) (top : OrderLossRow)
    (rest : List OrderLossRow)
    (h : m.structural_inefficiency_by_category = top :: rest) :
    ∃ s, summarizeBusiness m = Except.ok s ∧
      ((∃ c ∈ m.structural_collapse_by_category, 0 < c.loss_consistency_ratio) →
        s.risk_level = "Severe (Structural Collapse Detected)") ∧
      ((∀ c ∈ m.structural_collapse_by_category, c.loss_consistency_ratio ≤ 0) →
        s.risk_level =
          (if 35/100 < top.avg_loss_ratio then "High (Structural Inefficiency)"
           else if 25/100 < top.avg_loss_ratio then "Moderate" else "Low")) := by
  refine ⟨_, by rw [summarizeBusiness, h], ?_, ?_⟩
  · intro hex
    have hgt : optGt0 (seriesMax
        (m.structural_collapse_by_category.map (fun c => c.loss_consistency_ratio))) = true := by
      rw [optGt0_seriesMax]
      obtain ⟨c, hc, hc0⟩ := hex
      exact ⟨c.loss_consistency_ratio, List.mem_map_of_mem _ hc, hc0⟩
    simp [hgt]
  · intro hall
    have hgt : optGt0 (seriesMax
        (m.structural_collapse_by_category.map (fun c => c.loss_consistency_ratio))) = false := by
      rw [Bool.eq_false_iff]
      intro hcon
      rw [optGt0_seriesMax] at hcon
      obtain ⟨x, hx, hx0⟩ := hcon
      rw [List.mem_map] at hx
      obtain ⟨c, hc, rfl⟩ := hx
      exact absurd hx0 (not_lt.mpr (hall c hc))
    simp [hgt]

/-- C4 witness: a positive collapse ratio forces the Severe risk string
even though the top average loss ratio is 0.4 (which alone would give
"High"). -/
theorem summarizeBusiness_risk_precedence_witness :
    ∃ s, summarizeBusiness mSevereW = Except.ok s ∧
      s.risk_level = "Severe (Structural Collapse Detected)" := by
  obtain ⟨s, hs, hsev, _⟩ := summarizeBusiness_risk_precedence mSevereW
    { value := "b", avg_loss_ratio := 2/5, std_sq_loss_ratio := 0,
      periods_analyzed := 1, stability := "Stable" } [] rfl
  refine ⟨s, hs, hsev ?_⟩
  refine ⟨{ value := "a", loss_periods := 1, total_periods := 2, avg_profit := 5,
            loss_consistency_ratio := 1/2 }, ?_, by norm_num⟩
  simp [mSevereW]

/-- C4 counterexample: the claim's literal value "Severe" never occurs;
under a positive collapse ratio the code returns the string
"Severe (Structural Collapse Detected)". -/
theorem summarizeBusiness_severe_string_mismatch :
    ∃ s, summarizeBusiness mSevere = Except.ok s ∧
      (∃ c ∈ mSevere.structural_collapse_by_category, 0 < c.loss_consistency_ratio) ∧
      s.risk_level = "Severe (Structural Collapse Detected)" ∧
      s.risk_level ≠ "Severe" := by
  refine ⟨{ health_score := NpF.fin 50, profit_margin_pct := NpF.fin 10,
            loss_order_pct := 0, highest_risk_category := "b",
            highest_loss_ratio := 0,
            risk_level := "Severe (Structural Collapse Detected)" }, ?_, ?_, rfl, by decide⟩
  · with_unfolding_all rfl
  · refine ⟨{ value := "a", loss_periods := 1, total_periods := 1, avg_profit := -5,
              loss_consistency_ratio := 1 }, ?_, by norm_num⟩
    simp [mSevere]

/-- C6: one order with two loss-making line items in one period gives a
per-period (and hence average) loss-order ratio of 2 > 1, because loss
line items are counted against distinct order ids; through the pipeline
`summarize_business` then reports a `highest_loss_ratio` of 200 > 100
percent. -/
theorem orderLoss_ratio_exceeds_one :
    (∃ r, r ∈ orderLossConsistency tblNegPair Row.category ∧ 1 < r.avg_loss_ratio) ∧
    (∃ s, (computeAdvancedMetrics tblNegPair >>= summarizeBusiness) = Except.ok s ∧
      100 < s.highest_loss_ratio) := by
  constructor
  · refine ⟨{ value := "a", avg_loss_ratio := 2, std_sq_loss_ratio := 0,
              periods_analyzed := 1, stability := "Stable" }, ?_, by norm_num⟩
    exact of_decide_eq_true (by with_unfolding_all rfl)
  · refine ⟨{ health_score := NpF.fin 0, profit_margin_pct := NpF.fin (-40),
              loss_order_pct := 100, highest_risk_category := "a",
              highest_loss_ratio := 200,
              risk_level := "Severe (Structural Collapse Detected)" }, ?_, by norm_num⟩
    with_unfolding_all rfl

/-- Sum of a column over a cons. -/
lemma sumQ_cons (f : Row → ℚ) (r : Row) (l : List Row) :
    sumQ f (r :: l) = f r + sumQ f l := by
  simp [sumQ]

/-- Filtering a cons into a bucket. -/
lemma bucketRows_cons (r : Row) (rest : List Row) (i : Fin 4) :
    bucketRows (r :: rest) i =
      if bucketOf r.discount = some i then r :: bucketRows rest i
      else bucketRows rest i := by
  simp [bucketRows, List.filter_cons]

/-- Every discount in the defined range falls in exactly one of the four
right-closed bins. -/
lemma bucketOf_mem_of_range (d : ℚ) (h1 : -(1/100) < d) (h2 : d ≤ 1) :
    ∃ i, bucketOf d = some i := by
  unfold bucketOf
  split_ifs with c0 c1 c2 c3
  · exact ⟨0, rfl⟩
  · exact ⟨1, rfl⟩
  · exact ⟨2, rfl⟩
  · exact ⟨3, rfl⟩
  · exfalso
    have e0 : ¬ d ≤ 1/10 := fun hd => c0 ⟨h1, hd⟩
    have e1 : ¬ d ≤ 1/5 := fun hd => c1 ⟨not_le.mp e0, hd⟩
    have e2 : ¬ d ≤ 3/10 := fun hd => c2 ⟨not_le.mp e1, hd⟩
    exact c3 ⟨not_le.mp e2, h2⟩

/-- A numeric column sums over the four buckets to the table total when
every discount falls in some bucket. -/
lemma bucket_filter_sum (f : Row → ℚ) (t : List Row)
    (h : ∀ r ∈ t, ∃ i, bucketOf r.discount = some i) :
    sumQ f (bucketRows t 0) + sumQ f (bucketRows t 1) + sumQ f (bucketRows t 2) +
      sumQ f (bucketRows t 3) = sumQ f t := by
  induction t with
  | nil => simp [bucketRows, sumQ]
  | cons r rest ih =>
    obtain ⟨i, hi⟩ := h r (List.mem_cons_self r rest)
    have key := ih (fun x hx => h x (List.mem_cons_of_mem r hx))
    fin_cases i <;>
      simp [bucketRows_cons, hi, sumQ_cons, Fin.ext_iff, show (3:Fin 4).val = 3 from rfl,
        show (2:Fin 4).val = 2 from rfl, show (1:Fin 4).val = 1 from rfl,
        show (0:Fin 4).val = 0 from rfl] <;>
      linarith [key]

/-- The distinct-order count as a finset cardinality. -/
lemma nuniqueOid_toFinset (l : List Row) :
    nuniqueOid l = ((l.map Row.order_id).toFinset).card := by
  unfold nuniqueOid
  rw [List.card_toFinset]

/-- The distinct-order count of the table is at most the sum of the
per-bucket distinct-order counts (an order appearing in several buckets is
counted once on the left, once per bucket on the right). -/
lemma nunique_le_bucket_counts (t : List Row)
    (h : ∀ r ∈ t, ∃ i, bucketOf r.discount = some i) :
    nuniqueOid t ≤ nuniqueOid (bucketRows t 0) + nuniqueOid (bucketRows t 1) +
      nuniqueOid (bucketRows t 2) + nuniqueOid (bucketRows t 3) := by
  rw [nuniqueOid_toFinset, nuniqueOid_toFinset, nuniqueOid_toFinset,
    nuniqueOid_toFinset, nuniqueOid_toFinset]
  have hmem : ∀ r ∈ t, ∀ j : Fin 4, bucketOf r.discount = some j →
      Row.order_id r ∈ ((bucketRows t j).map Row.order_id).toFinset := by
    intro r hr j hj
    rw [List.mem_toFinset, List.mem_map]
    refine ⟨r, ?_, rfl⟩
    simp [bucketRows, List.mem_filter, hr, hj]
  have hsub : (t.map Row.order_id).toFinset ⊆
      ((((bucketRows t 0).map Row.order_id).toFinset ∪
        ((bucketRows t 1).map Row.order_id).toFinset) ∪
       (((bucketRows t 2).map Row.order_id).toFinset ∪
        ((bucketRows t 3).map Row.order_id).toFinset)) := by
    intro x hx
    rw [List.mem_toFinset, List.mem_map] at hx
    obtain ⟨r, hr, rfl⟩ := hx
    obtain ⟨i, hi⟩ := h r hr
    fin_cases i
    · exact Finset.mem_union_left _ (Finset.mem_union_left _ (hmem r hr 0 hi))
    · exact Finset.mem_union_left _ (Finset.mem_union_right _ (hmem r hr 1 hi))
    · exact Finset.mem_union_right _ (Finset.mem_union_left _ (hmem r hr 2 hi))
    · exact Finset.mem_union_right _ (Finset.mem_union_right _ (hmem r hr 3 hi))
  have step1 := Finset.card_le_card hsub
  have step2 := Finset.card_union_le
    ((((bucketRows t 0).map Row.order_id).toFinset ∪
      ((bucketRows t 1).map Row.order_id).toFinset))
    ((((bucketRows t 2).map Row.order_id).toFinset ∪
      ((bucketRows t 3).map Row.order_id).toFinset))
  have step3 := Finset.card_union_le ((bucketRows t 0).map Row.order_id).toFinset
    ((bucketRows t 1).map Row.order_id).toFinset
  have step4 := Finset.card_union_le ((bucketRows t 2).map Row.order_id).toFinset
    ((bucketRows t 3).map Row.order_id).toFinset
  omega

/-- C1 (amended): over tables whose discounts lie in the defined range,
the bucket rows partition the sales and profit totals exactly; the bucket
`order_count`s, being per-bucket distinct counts, sum to at least the
table's distinct order count (equality can fail when one order's line
items span several buckets). -/
theorem discountProfitAnalysis_partition (t : List Row)
    (h : ∀ r ∈ t, -(1/100) < r.discount ∧ r.discount ≤ 1) :
    ((discountProfitAnalysis t).map (fun b => b.total_sales)).sum = sumQ Row.sales t ∧
    ((discountProfitAnalysis t).map (fun b => b.total_profit)).sum = sumQ Row.profit t ∧
    nuniqueOid t ≤ ((discountProfitAnalysis t).map (fun b => b.order_count)).sum := by
  have h' : ∀ r ∈ t, ∃ i, bucketOf r.discount = some i :=
    fun r hr => bucketOf_mem_of_range r.discount (h r hr).1 (h r hr).2
  refine ⟨?_, ?_, ?_⟩
  · have key := bucket_filter_sum Row.sales t h'
    simp only [discountProfitAnalysis, mkBucketRow, List.map_cons, List.map_nil,
      List.sum_cons, List.sum_nil]
    linarith
  · have key := bucket_filter_sum Row.profit t h'
    simp only [discountProfitAnalysis, mkBucketRow, List.map_cons, List.map_nil,
      List.sum_cons, List.sum_nil]
    linarith
  · have key := nunique_le_bucket_counts t h'
    simp only [discountProfitAnalysis, mkBucketRow, List.map_cons, List.map_nil,
      List.sum_cons, List.sum_nil]
    omega

/-- C1 witness: a table of two single-bucket orders with in-range
discounts satisfies the partition equalities and the order-count bound. -/
theorem discountProfitAnalysis_partition_witness :
    (∀ r ∈ tblInRange, -(1/100) < r.discount ∧ r.discount ≤ 1) ∧
    (((discountProfitAnalysis tblInRange).map (fun b => b.total_sales)).sum =
        sumQ Row.sales tblInRange ∧
      ((discountProfitAnalysis tblInRange).map (fun b => b.total_profit)).sum =
        sumQ Row.profit tblInRange ∧
      nuniqueOid tblInRange ≤
        ((discountProfitAnalysis tblInRange).map (fun b => b.order_count)).sum) := by
  have hr : ∀ r ∈ tblInRange, -(1/100) < r.discount ∧ r.discount ≤ 1 := by
    intro r hmem
    fin_cases hmem <;> constructor <;> norm_num [mkRow]
  exact ⟨hr, discountProfitAnalysis_partition tblInRange hr⟩

/-- C1 counterexample: a single order whose two line items fall in
different buckets has bucket order counts summing to 2, while the
unbucketed distinct order count is 1, refuting the order-count part of
the partition claim even though every discount is in range. -/
theorem discount_order_count_not_partition :
    (∀ r ∈ tblSplitBuckets, -(1/100) < r.discount ∧ r.discount ≤ 1) ∧
    ((discountProfitAnalysis tblSplitBuckets).map (fun b => b.order_count)).sum = 2 ∧
    nuniqueOid tblSplitBuckets = 1 ∧
    ((discountProfitAnalysis tblSplitBuckets).map (fun b => b.order_count)).sum ≠
      nuniqueOid tblSplitBuckets := by
  refine ⟨?_, ?_, ?_, ?_⟩
  · intro r hmem
    fin_cases hmem <;> constructor <;> norm_num [mkRow]
  · with_unfolding_all rfl
  · with_unfolding_all rfl
  · exact of_decide_eq_true (by with_unfolding_all rfl)

/-- Python `max` agrees with the lattice `max` on finite values. -/
lemma pyMax_fin (a b : ℚ) : pyMax (NpF.fin a) (NpF.fin b) = NpF.fin (max a b) := by
  by_cases hab : a < b
  · simp [pyMax, npLtB, hab, max_eq_right hab.le]
  · simp [pyMax, npLtB, hab, max_eq_left (not_lt.mp hab)]

/-- Round-half-to-even of a non-negative rational is non-negative. -/
lemma rne_nonneg (q : ℚ) (h : 0 ≤ q) : 0 ≤ rne q := by
  have hf : (0:ℤ) ≤ ⌊q⌋ := Int.floor_nonneg.mpr h
  unfold rne
  split_ifs <;> omega

/-- Round-half-to-even never overshoots an integer upper bound. -/
lemma rne_le (q : ℚ) (n : ℤ) (h : q ≤ (n:ℚ)) : rne q ≤ n := by
  have hf : ⌊q⌋ ≤ n := by
    have h2 := Int.floor_le_floor h
    rwa [Int.floor_intCast] at h2
  unfold rne
  split_ifs with hc1 hc2 hc3
  · exact hf
  · have hr : (1:ℚ)/2 ≤ q - (⌊q⌋:ℚ) := not_lt.mp hc1
    have hq : (⌊q⌋:ℚ) < (n:ℚ) := by linarith
    have hz : ⌊q⌋ < n := by exact_mod_cast hq
    omega
  · exact hf
  · have hr : (1:ℚ)/2 ≤ q - (⌊q⌋:ℚ) := not_lt.mp hc1
    have hq : (⌊q⌋:ℚ) < (n:ℚ) := by linarith
    have hz : ⌊q⌋ < n := by exact_mod_cast hq
    omega

/-- Two-decimal rounding preserves non-negativity. -/
lemma pyRound2_nonneg (q : ℚ) (h : 0 ≤ q) : 0 ≤ pyRound2 q := by
  unfold pyRound2
  have hz := rne_nonneg (q * 100) (by positivity)
  apply div_nonneg _ (by norm_num)
  exact_mod_cast hz

/-- Two-decimal rounding preserves the bound 100. -/
lemma pyRound2_le_100 (q : ℚ) (h : q ≤ 100) : pyRound2 q ≤ 100 := by
  unfold pyRound2
  have h1 : q * 100 ≤ ((10000:ℤ):ℚ) := by push_cast; linarith
  have h2 := rne_le (q * 100) 10000 h1
  rw [div_le_iff₀ (show (0:ℚ) < 100 by norm_num)]
  have h3 : ((rne (q * 100) : ℤ) : ℚ) ≤ ((10000:ℤ):ℚ) := by exact_mod_cast h2
  push_cast at h3 ⊢
  linarith

/-- A non-empty table has a positive distinct-order count. -/
lemma nuniqueOid_pos (t : List Row) (h : t ≠ []) : 0 < nuniqueOid t := by
  unfold nuniqueOid
  rw [List.length_pos]
  simpa [List.dedup_eq_nil, List.map_eq_nil_iff] using h

/-- C5 (amended): on any table with at least one row and nonzero total
revenue, `profit_health_score` returns, its health score equals
100 − 2·max(0, −profit_margin_pct) − 1.5·max(0, loss_order_pct − 15)
clamped below at 0 and rounded to two decimals (computed from the
returned, rounded margin and loss percentages), and that score lies in
[0, 100]. -/
theorem profitHealthScore_formula (t : List Row) (h1 : t ≠ [])
    (h2 : sumQ Row.sales t ≠ 0) :
    ∃ hr mq, profitHealthScore t = Except.ok hr ∧
      hr.profit_margin_pct = NpF.fin mq ∧
      hr.health_score = NpF.fin (pyRound2 (max
        (100 - 2 * max 0 (-mq) - 3/2 * max 0 (hr.loss_order_pct - 15)) 0)) ∧
      ∃ hq, hr.health_score = NpF.fin hq ∧ 0 ≤ hq ∧ hq ≤ 100 := by
  have ho : nuniqueOid t ≠ 0 := (nuniqueOid_pos t h1).ne'
  have hk : computeKpis t = Except.ok
      { total_revenue := pyRound2 (sumQ Row.sales t)
        total_profit := pyRound2 (sumQ Row.profit t)
        profit_margin_pct :=
          NpF.fin (pyRound2 (100 * (sumQ Row.profit t / sumQ Row.sales t)))
        total_orders := nuniqueOid t
        loss_order_pct := pyRound2
          ((nuniqueOid (t.filter (fun r => decide (r.profit < 0))) : ℚ) /
            (nuniqueOid t : ℚ) * 100) } := by
    unfold computeKpis
    rw [if_neg ho]
    simp [npDiv, h2, npScale, npRound2]
  have hh : profitHealthScore t = Except.ok
      { health_score := NpF.fin (pyRound2 (max
          (100 - 2 * max 0 (-(pyRound2 (100 * (sumQ Row.profit t / sumQ Row.sales t)))) -
            3/2 * max 0 (pyRound2
              ((nuniqueOid (t.filter (fun r => decide (r.profit < 0))) : ℚ) /
                (nuniqueOid t : ℚ) * 100) - 15)) 0))
        profit_margin_pct :=
          NpF.fin (pyRound2 (100 * (sumQ Row.profit t / sumQ Row.sales t)))
        loss_order_pct := pyRound2
          ((nuniqueOid (t.filter (fun r => decide (r.profit < 0))) : ℚ) /
            (nuniqueOid t : ℚ) * 100) } := by
    unfold profitHealthScore
    rw [hk]
    show Except.ok _ = _
    simp [npNeg, pyMax_fin, npScale, npSub, npRound2]
  refine ⟨_, _, hh, rfl, rfl, _, rfl, ?_, ?_⟩
  · exact pyRound2_nonneg _ (le_max_right _ _)
  · apply pyRound2_le_100
    apply max_le _ (by norm_num)
    have p1 : 0 ≤ 2 * max 0 (-(pyRound2 (100 * (sumQ Row.profit t / sumQ Row.sales t)))) :=
      mul_nonneg (by norm_num) (le_max_left 0 _)
    have p2 : 0 ≤ 3/2 * max 0 (pyRound2
        ((nuniqueOid (t.filter (fun r => decide (r.profit < 0))) : ℚ) /
          (nuniqueOid t : ℚ) * 100) - 15) :=
      mul_nonneg (by norm_num) (le_max_left 0 _)
    linarith

/-- C5 witness: a one-row profitable table satisfies the hypotheses and
the health-score formula and bounds. -/
theorem profitHealthScore_formula_witness :
    tblOneRow ≠ [] ∧ sumQ Row.sales tblOneRow ≠ 0 ∧
    (∃ hr mq, profitHealthScore tblOneRow = Except.ok hr ∧
      hr.profit_margin_pct = NpF.fin mq ∧
      hr.health_score = NpF.fin (pyRound2 (max
        (100 - 2 * max 0 (-mq) - 3/2 * max 0 (hr.loss_order_pct - 15)) 0)) ∧
      ∃ hq, hr.health_score = NpF.fin hq ∧ 0 ≤ hq ∧ hq ≤ 100) := by
  have ha : tblOneRow ≠ [] := by simp [tblOneRow]
  have hb : sumQ Row.sales tblOneRow ≠ 0 := of_decide_eq_true (by with_unfolding_all rfl)
  exact ⟨ha, hb, profitHealthScore_formula tblOneRow ha hb⟩

/-- C5 counterexample: on the empty table `profit_health_score` does not
return a health score at all; `compute_kpis` aborts with the unguarded
integer division by a zero order count. -/
theorem profitHealthScore_empty_table_raises :
    profitHealthScore ([] : List Row) =
      Except.error "ZeroDivisionError: division by zero" := by
  with_unfolding_all rfl

/-- A non-empty table yields a non-empty dimension breakdown. -/
lemma profitByDimension_ne_nil (t : List Row) (key : Row → String) (h : t ≠ []) :
    profitByDimension t key ≠ [] := by
  unfold profitByDimension
  intro hc
  have hlen := congrArg List.length hc
  simp only [List.length_insertionSort, List.length_map, List.length_nil,
    List.length_eq_zero, List.dedup_eq_nil, List.map_eq_nil_iff] at hlen
  exact h hlen

/-- C7: for a non-empty table every `profit_by_dimension` breakdown is
sorted ascending by `total_profit`, and the four `worst_performers`
fields are the dimension values of the first rows of the corresponding
breakdowns. -/
theorem profitByDimension_sorted_and_worst (t : List Row) (h : t ≠ []) :
    (∀ key : Row → String, List.Sorted dimLe (profitByDimension t key)) ∧
    worstPerformers t = Except.ok
      { worst_category := ((profitByDimension t Row.category).headI).value
        worst_sub_category := ((profitByDimension t Row.sub_category).headI).value
        worst_region := ((profitByDimension t Row.region).headI).value
        worst_segment := ((profitByDimension t Row.segment).headI).value } := by
  constructor
  · intro key
    exact List.sorted_insertionSort dimLe _
  · obtain ⟨a, as, ha⟩ :=
      List.exists_cons_of_ne_nil (profitByDimension_ne_nil t Row.category h)
    obtain ⟨b, bs, hb⟩ :=
      List.exists_cons_of_ne_nil (profitByDimension_ne_nil t Row.sub_category h)
    obtain ⟨c, cs, hc⟩ :=
      List.exists_cons_of_ne_nil (profitByDimension_ne_nil t Row.region h)
    obtain ⟨d, ds, hd⟩ :=
      List.exists_cons_of_ne_nil (profitByDimension_ne_nil t Row.segment h)
    unfold worstPerformers
    rw [ha, hb, hc, hd]
    simp only [firstRow, List.headI_cons]
    rfl

/-- C7 witness: a two-category table satisfies non-emptiness, the sorted
order and the worst-performer selection. -/
theorem profitByDimension_sorted_and_worst_witness :
    tblTwoCat ≠ [] ∧
    ((∀ key : Row → String, List.Sorted dimLe (profitByDimension tblTwoCat key)) ∧
      worstPerformers tblTwoCat = Except.ok
        { worst_category := ((profitByDimension tblTwoCat Row.category).headI).value
          worst_sub_category :=
            ((profitByDimension tblTwoCat Row.sub_category).headI).value
          worst_region := ((profitByDimension tblTwoCat Row.region).headI).value
          worst_segment := ((profitByDimension tblTwoCat Row.segment).headI).value }) := by
  have ha : tblTwoCat ≠ [] := by simp [tblTwoCat]
  exact ⟨ha, profitByDimension_sorted_and_worst tblTwoCat ha⟩

/-- Sample variance is non-negative. -/
lemma sampleVarQ_nonneg (l : List ℚ) : 0 ≤ sampleVarQ l := by
  unfold sampleVarQ
  split_ifs with hl
  · exact le_refl 0
  · apply div_nonneg
    · apply List.sum_nonneg
      intro x hx
      rw [List.mem_map] at hx
      obtain ⟨y, -, rfl⟩ := hx
      positivity
    · have h2 : 2 ≤ l.length := by omega
      have h2q : (2:ℚ) ≤ (l.length:ℚ) := by exact_mod_cast h2
      linarith

/-- Every output row of `order_loss_consistency` stores a non-negative
variance, and its stability label is the classification of that
variance. -/
lemma mem_orderLossConsistency (t : List Row) (key : Row → String)
    (row : OrderLossRow) (h : row ∈ orderLossConsistency t key) :
    0 ≤ row.std_sq_loss_ratio ∧
      row.stability = stabilityOfVar row.std_sq_loss_ratio := by
  unfold orderLossConsistency at h
  rw [List.mem_insertionSort, List.mem_map] at h
  obtain ⟨d, -, rfl⟩ := h
  exact ⟨sampleVarQ_nonneg _, rfl⟩

/-- The variance-level classification agrees with the source's
std-level thresholds 0.05 and 0.15. -/
lemma stabilityOfVar_iff (v : ℚ) :
    (stabilityOfVar v = "Stable" ↔ Real.sqrt (v:ℝ) < 0.05) ∧
    (stabilityOfVar v = "Moderate" ↔
      (0.05:ℝ) ≤ Real.sqrt (v:ℝ) ∧ Real.sqrt (v:ℝ) < 0.15) ∧
    (stabilityOfVar v = "Unstable" ↔ (0.15:ℝ) ≤ Real.sqrt (v:ℝ)) := by
  have e1 : ((0.05:ℝ))^2 = ((1/400:ℚ):ℝ) := by push_cast; norm_num
  have e2 : ((0.15:ℝ))^2 = ((9/400:ℚ):ℝ) := by push_cast; norm_num
  have h5 : Real.sqrt (v:ℝ) < 0.05 ↔ v < 1/400 := by
    rw [Real.sqrt_lt' (by norm_num), e1, Rat.cast_lt]
  have h15 : Real.sqrt (v:ℝ) < 0.15 ↔ v < 9/400 := by
    rw [Real.sqrt_lt' (by norm_num), e2, Rat.cast_lt]
  unfold stabilityOfVar
  split_ifs with hA hB
  · refine ⟨iff_of_true rfl (h5.mpr hA), ?_, ?_⟩
    · refine iff_of_false (by decide) ?_
      rintro ⟨hle, -⟩
      exact absurd (h5.mpr hA) (not_lt.mpr hle)
    · refine iff_of_false (by decide) ?_
      intro hle
      have hlt := h5.mpr hA
      linarith
  · have hge : (0.05:ℝ) ≤ Real.sqrt (v:ℝ) := by
      by_contra hcon
      exact hA (h5.mp (not_le.mp hcon))
    refine ⟨?_, iff_of_true rfl ⟨hge, h15.mpr hB⟩, ?_⟩
    · refine iff_of_false (by decide) ?_
      intro hlt
      exact hA (h5.mp hlt)
    · refine iff_of_false (by decide) ?_
      intro hle
      have hlt := h15.mpr hB
      linarith
  · have hge : (0.15:ℝ) ≤ Real.sqrt (v:ℝ) := by
      by_contra hcon
      exact hB (h15.mp (not_le.mp hcon))
    refine ⟨?_, ?_, iff_of_true rfl hge⟩
    · refine iff_of_false (by decide) ?_
      intro hlt
      linarith
    · refine iff_of_false (by decide) ?_
      rintro ⟨-, hlt⟩
      linarith

/-- C9: for every row of `order_loss_consistency`, the stability label is
"Stable" iff the std is below 0.05, "Moderate" iff it lies in
[0.05, 0.15), and "Unstable" iff it is at least 0.15 (the std being the
square root of the stored variance). -/
theorem orderLossConsistency_stability_thresholds (t : List Row) (key : Row → String)
    (row : OrderLossRow) (h : row ∈ orderLossConsistency t key) :
    (row.stability = "Stable" ↔ Real.sqrt (row.std_sq_loss_ratio : ℝ) < 0.05) ∧
    (row.stability = "Moderate" ↔
      (0.05:ℝ) ≤ Real.sqrt (row.std_sq_loss_ratio : ℝ) ∧
        Real.sqrt (row.std_sq_loss_ratio : ℝ) < 0.15) ∧
    (row.stability = "Unstable" ↔
      (0.15:ℝ) ≤ Real.sqrt (row.std_sq_loss_ratio : ℝ)) := by
  rw [(mem_orderLossConsistency t key row h).2]
  exact stabilityOfVar_iff _

/-- C9 witness: the boundary cases.  `tblStd5` produces a row with std
exactly 0.05 (variance 1/400) labelled "Moderate", not "Stable";
`tblStd15` produces a row with std exactly 0.15 (variance 9/400)
labelled "Unstable". -/
theorem stability_boundary_witness :
    (∃ row, row ∈ orderLossConsistency tblStd5 Row.category ∧
      row.std_sq_loss_ratio = 1/400 ∧ row.stability = "Moderate") ∧
    (∃ row, row ∈ orderLossConsistency tblStd15 Row.category ∧
      row.std_sq_loss_ratio = 9/400 ∧ row.stability = "Unstable") := by
  constructor
  · have hmem : ({ value := "a", avg_loss_ratio := 1/20, std_sq_loss_ratio := 1/400,
                   periods_analyzed := 3, stability := "Moderate" } : OrderLossRow) ∈
        orderLossConsistency tblStd5 Row.category :=
      of_decide_eq_true (by with_unfolding_all rfl)
    refine ⟨_, hmem, rfl, ?_⟩
    have hsq : Real.sqrt ((1/400:ℚ):ℝ) = 0.05 := by
      rw [show ((1/400:ℚ):ℝ) = (0.05:ℝ)^2 by push_cast; norm_num]
      exact Real.sqrt_sq (by norm_num)
    apply ((orderLossConsistency_stability_thresholds tblStd5 Row.category _ hmem).2.1).mpr
    constructor
    · show (0.05:ℝ) ≤ Real.sqrt ((1/400:ℚ):ℝ)
      rw [hsq]
    · show Real.sqrt ((1/400:ℚ):ℝ) < 0.15
      rw [hsq]
      norm_num
  · have hmem : ({ value := "a", avg_loss_ratio := 3/20, std_sq_loss_ratio := 9/400,
                   periods_analyzed := 3, stability := "Unstable" } : OrderLossRow) ∈
        orderLossConsistency tblStd15 Row.category :=
      of_decide_eq_true (by with_unfolding_all rfl)
    refine ⟨_, hmem, rfl, ?_⟩
    have hsq : Real.sqrt ((9/400:ℚ):ℝ) = 0.15 := by
      rw [show ((9/400:ℚ):ℝ) = (0.15:ℝ)^2 by push_cast; norm_num]
      exact Real.sqrt_sq (by norm_num)
    apply ((orderLossConsistency_stability_thresholds tblStd15 Row.category _ hmem).2.2).mpr
    show (0.15:ℝ) ≤ Real.sqrt ((9/400:ℚ):ℝ)
    rw [hsq]

/-- Bind of a successful `Except` computation. -/
lemma bind_ok_eq {α β : Type} (a : α) (f : α → Except String β) :
    (Except.ok a >>= f : Except String β) = f a := rfl

/-- `any` over a single keyword is that keyword's test. -/
lemma anyIn_singleton (w q : String) : anyIn [w] q = strIn w q := by
  simp [anyIn]

/-- A successful result of a conditional. -/
lemma ok_ite {α : Type} (c : Prop) [Decidable c] (a b : α) :
    (Except.ok (if c then a else b) : Except String α) =
      if c then Except.ok a else Except.ok b := by
  split_ifs <;> rfl

/-- A question that matches no keyword group falsifies each group's test
and the bare "risk" fallback test. -/
lemma noMatch_conditions (q : String) (h : noMatch q = true) :
    anyIn ["health", "overall score", "business condition"] q = false ∧
    anyIn ["margin", "profit margin"] q = false ∧
    anyIn ["loss order", "loss orders", "loss percentage", "how many loss"] q = false ∧
    anyIn ["highest risk", "risk category", "most risky"] q = false ∧
    anyIn ["stable", "stability", "volatility", "unstable"] q = false ∧
    strIn "risk" q = false := by
  simp [noMatch, anyIn] at h ⊢
  tauto

/-- C8: `answer_business_question` lowercases and strips the question and
is exactly the first-match dispatch over the spec's ordered keyword
groups (`answerSpec`); in particular, whenever the summary is computed
and no group matches, it returns the fixed not-recognized guidance
message. -/
theorem answerBusinessQuestion_routing (question : String) (m : Metrics) :
    answerBusinessQuestion question m = answerSpec question m ∧
    (∀ s, summarizeBusiness m = Except.ok s →
      noMatch (pyStrip (pyLower question)) = true →
      answerBusinessQuestion question m = Except.ok notRecognizedMsg) := by
  constructor
  · cases hm : m.structural_inefficiency_by_category with
    | nil =>
      have hs : summarizeBusiness m = Except.error
          "IndexError: single positional indexer is out-of-bounds" := by
        simp [summarizeBusiness, hm]
      unfold answerBusinessQuestion answerSpec
      rw [hs]
      rfl
    | cons w rest =>
      obtain ⟨s0, hs⟩ : ∃ s0, summarizeBusiness m = Except.ok s0 := by
        unfold summarizeBusiness
        rw [hm]
        exact ⟨_, rfl⟩
      unfold answerBusinessQuestion answerSpec
      rw [hs]
      simp only [bind_ok_eq, hm, firstMatch, intentGroups, ok_ite, anyIn_singleton]
  · intro s hs hnm
    obtain ⟨c1, c2, c3, c4, c5, c6⟩ := noMatch_conditions _ hnm
    unfold answerBusinessQuestion
    rw [hs]
    simp only [bind_ok_eq]
    simp [c1, c2, c3, c4, c5, c6]

/-- C8 witness: with well-formed metrics, the question "xyz" matches no
keyword group and gets the fixed not-recognized guidance message. -/
theorem answer_unrecognized_witness :
    answerBusinessQuestion "xyz" mAnswer = Except.ok notRecognizedMsg := by
  have hs : summarizeBusiness mAnswer = Except.ok
      { health_score := NpF.fin 80, profit_margin_pct := NpF.fin 20,
        loss_order_pct := 5, highest_risk_category := "b",
        highest_loss_ratio := 10, risk_level := "Low" } := by
    with_unfolding_all rfl
  exact (answerBusinessQuestion_routing "xyz" mAnswer).2 _ hs
    (of_decide_eq_true (by with_unfolding_all rfl))
